import Mathlib

/-!
Verification of the StockFlow inventory backend (low-stock alerts and
product creation) against its natural-language specification.

The Python source is shallowly embedded:
  - SQLAlchemy rows become Lean structures; the database session becomes an
    explicit DB value holding the table contents as lists in insertion order.
  - SQL queries become list operations: inner joins are filterMap over a
    lookup, outer joins yield Option fields, WHERE clauses become filters,
    GROUP BY aggregates become folds over the filtered rows.
  - Python float arithmetic is modelled with exact rationals; Python int()
    truncation toward zero is pyTrunc.
  - Timestamps are integers measured in days, so the SQL date() truncation
    used only inside COUNT(DISTINCT ...) is the identity on them.
  - JSON request payloads are JVal trees; the Python coercions str, float
    and int are modelled by pyStr, pyFloat and pyIntJ (decimal literals
    only; exponent and infinity spellings are out of the modelled scope).
  - Response bodies are reduced to the data the claims talk about: status
    code, the alert list (whose length is the total_alerts field) for the
    alert endpoints, and the result category for create_product.
-/

/-- JSON scalar values as they arrive in a request body. -/
inductive JVal where
  | jnull : JVal
  | jbool : Bool → JVal
  | jint : Int → JVal
  | jfloat : ℚ → JVal
  | jstr : String → JVal
deriving DecidableEq

/-- Value of a nonempty digit string, none when a non-digit appears. -/
def digitsVal (cs : List Char) : Option Nat :=
  cs.foldl
    (fun acc c =>
      match acc with
      | none => none
      | some n => if c.isDigit then some (n * 10 + (c.toNat - 48)) else none)
    (some 0)

/-- Parse a nonempty run of decimal digits. -/
def parseNatDigits (cs : List Char) : Option Nat :=
  if cs.isEmpty then none else digitsVal cs

/-- Modelled Python int(string): optional sign followed by digits. -/
def parseIntStr (s : String) : Option Int :=
  match s.data with
  | '-' :: rest => (parseNatDigits rest).map (fun n => -(n : Int))
  | '+' :: rest => (parseNatDigits rest).map (fun n => (n : Int))
  | cs => (parseNatDigits cs).map (fun n => (n : Int))

/-- Digits with an optional fraction part, as an exact rational. -/
def parseDecCore (cs : List Char) : Option ℚ :=
  let ip := cs.takeWhile (fun c => c.isDigit)
  let rest := cs.dropWhile (fun c => c.isDigit)
  match rest with
  | [] => if ip.isEmpty then none else (digitsVal ip).map (fun n => (n : ℚ))
  | '.' :: fp =>
    if !(fp.all (fun c => c.isDigit)) then none
    else if ip.isEmpty && fp.isEmpty then none
    else
      match digitsVal ip, digitsVal fp with
      | some a, some b => some ((a : ℚ) + (b : ℚ) / ((10 : ℚ) ^ fp.length))
      | _, _ => none
  | _ => none

/-- Modelled Python float(string): optional sign, digits, optional fraction. -/
def parseDecStr (s : String) : Option ℚ :=
  match s.data with
  | '-' :: rest => (parseDecCore rest).map (fun q => -q)
  | '+' :: rest => parseDecCore rest
  | cs => parseDecCore cs

/-- Modelled Python str() on a JSON scalar. -/
def pyStr : JVal → String
  | .jnull => "None"
  | .jbool b => if b then "True" else "False"
  | .jint n => toString n
  | .jfloat q => toString q
  | .jstr s => s

/-- Modelled Python truthiness of a JSON scalar. -/
def truthy : JVal → Bool
  | .jnull => false
  | .jbool b => b
  | .jint n => n != 0
  | .jfloat q => q != 0
  | .jstr s => s != ""

/-- Modelled Python str.strip(): drop whitespace from both ends. -/
def pyStrip (s : String) : String :=
  ⟨((s.data.dropWhile Char.isWhitespace).reverse.dropWhile
    Char.isWhitespace).reverse⟩

/-- Modelled Python int() truncation toward zero on a rational. -/
def pyTrunc (x : ℚ) : Int :=
  if x < 0 then -⌊-x⌋ else ⌊x⌋

/-- Modelled Python float() on a JSON scalar; none when it raises. -/
def pyFloat : JVal → Option ℚ
  | .jnull => none
  | .jbool b => some (if b then 1 else 0)
  | .jint n => some (n : ℚ)
  | .jfloat q => some q
  | .jstr s => parseDecStr (pyStrip s)

/-- Modelled Python int() on a JSON scalar; none when it raises. -/
def pyIntJ : JVal → Option Int
  | .jnull => none
  | .jbool b => some (if b then 1 else 0)
  | .jint n => some n
  | .jfloat q => some (pyTrunc q)
  | .jstr s => parseIntStr (pyStrip s)

/- Data model, from models.py.  Only the columns the two endpoints read are
kept; audit timestamps and columns that no claim touches are omitted. -/

/-- Row of the companies table. -/
structure Company where
  id : Int
  name : String
deriving DecidableEq

/-- Row of the warehouses table. -/
structure Warehouse where
  id : Int
  company_id : Int
  name : String
deriving DecidableEq

/-- Row of the suppliers table. -/
structure Supplier where
  id : Int
  name : String
  contact_email : Option String
deriving DecidableEq

/-- Row of the product_types table.  The column is declared NOT NULL with
default 10, but the endpoint code defends against a missing value, so the
embedding keeps it optional exactly as the code reads it. -/
structure ProductType where
  id : Int
  default_low_stock_threshold : Option Int
deriving DecidableEq

/-- Row of the products table. -/
structure Product where
  id : Int
  sku : String
  name : String
  price : ℚ
  description : Option String
  product_type_id : Option Int
  supplier_id : Option Int
deriving DecidableEq

/-- Row of the inventory table. -/
structure Inventory where
  id : Int
  product_id : Int
  warehouse_id : Int
  quantity : Int
  low_stock_threshold : Option Int
deriving DecidableEq

/-- Row of the inventory_transactions table. -/
structure InventoryTransaction where
  product_id : Int
  warehouse_id : Int
  transaction_type : String
  quantity_change : Int
  quantity_before : Int
  quantity_after : Int
  notes : String
deriving DecidableEq

/-- Row of the sales table. -/
structure Sale where
  product_id : Int
  warehouse_id : Int
  quantity : Int
  sale_date : Int
deriving DecidableEq

/-- The relational store: table contents in insertion order. -/
structure DB where
  companies : List Company
  warehouses : List Warehouse
  suppliers : List Supplier
  productTypes : List ProductType
  products : List Product
  inventories : List Inventory
  invTransactions : List InventoryTransaction
  sales : List Sale
deriving DecidableEq

/- Low-stock alerts endpoint, from low_stock_alerts.py. -/

/-- Joined value of the ProductType default as SQL sees it: NULL either when
the outer join found no ProductType row or when the column itself is NULL. -/
def typeDefault (pt : Option ProductType) : Option Int :=
  pt.bind (fun t => t.default_low_stock_threshold)

/-- Low-stock WHERE clause of get_low_stock_alerts (the or_ of three and_
branches over the threshold fallback chain, lines 109-125). -/
def lowStockCond (q : Int) (ov td : Option Int) : Bool :=
  match ov with
  | some t => decide (q < t)
  | none =>
    match td with
    | some t => decide (q < t)
    | none => decide (q < 10)

/-- Low-stock WHERE clause of get_low_stock_alerts_optimized, written with
coalesce (lines 330-334). -/
def lowStockCondOpt (q : Int) (ov td : Option Int) : Bool :=
  decide (q < ov.getD (td.getD 10))

/-- Python threshold expression evaluated per row in both endpoints:
override when present, else type default when present, else 10. -/
def resolveThreshold (ov td : Option Int) : Int :=
  match ov with
  | some t => t
  | none =>
    match td with
    | some t => t
    | none => 10

/-- One row of the five-way join: Inventory with its Product and Warehouse
(inner joins) and the optional ProductType and Supplier (outer joins). -/
structure JoinedRow where
  inv : Inventory
  product : Product
  warehouse : Warehouse
  ptype : Option ProductType
  supplier : Option Supplier
deriving DecidableEq

/-- Join one inventory row; none when an inner-join partner is missing. -/
def joinRow (db : DB) (inv : Inventory) : Option JoinedRow :=
  match db.products.find? (fun p => p.id == inv.product_id),
        db.warehouses.find? (fun w => w.id == inv.warehouse_id) with
  | some p, some w =>
    some { inv := inv, product := p, warehouse := w,
           ptype := p.product_type_id.bind
             (fun t => db.productTypes.find? (fun x => x.id == t)),
           supplier := p.supplier_id.bind
             (fun sid => db.suppliers.find? (fun s => s.id == sid)) }
  | _, _ => none

/-- All joined inventory rows of the store, in table order. -/
def joinedRows (db : DB) : List JoinedRow :=
  db.inventories.filterMap (joinRow db)

/-- Sale rows of one (product, warehouse) pair inside the trailing window;
cutoff is now minus the requested number of days. -/
def matchingSales (db : DB) (cutoff : Int) (pid wid : Int) : List Sale :=
  db.sales.filter
    (fun s => decide (cutoff ≤ s.sale_date) && s.product_id == pid &&
      s.warehouse_id == wid)

/-- Total quantity sold by one pair inside the window. -/
def salesSum (db : DB) (cutoff : Int) (pid wid : Int) : Int :=
  ((matchingSales db cutoff pid wid).map (fun s => s.quantity)).sum

/-- Window filter of the grouped sales subquery of get_low_stock_alerts,
which also restricts product_id to the low-stock product list. -/
def windowSales (db : DB) (cutoff : Int) (pids : List Int) (pid wid : Int) :
    List Sale :=
  db.sales.filter
    (fun s => decide (cutoff ≤ s.sale_date) && pids.contains s.product_id &&
      s.product_id == pid && s.warehouse_id == wid)

/-- Lookup of one (product, warehouse) group in the sales subquery of
get_low_stock_alerts: total_sold and days_with_sales, none when the group
is empty (lines 141-152 and 170-173). -/
def recentGroup (db : DB) (cutoff : Int) (pids : List Int) (pid wid : Int) :
    Option (Int × Nat) :=
  let ms := windowSales db cutoff pids pid wid
  if ms.isEmpty then none
  else some ((ms.map (fun s => s.quantity)).sum,
    ((ms.map (fun s => s.sale_date)).dedup).length)

/-- Average daily sales: total sold over the window divided by the
requested window length. -/
def averageDailySales (total days : Int) : ℚ :=
  (total : ℚ) / (days : ℚ)

/-- Grouped subquery of get_low_stock_alerts_optimized: sum(quantity)/days
per (product, warehouse) pair, none for an empty group (lines 286-295). -/
def avgGroupOpt (db : DB) (cutoff days : Int) (pid wid : Int) : Option ℚ :=
  let ms := matchingSales db cutoff pid wid
  if ms.isEmpty then none
  else some (averageDailySales ((ms.map (fun s => s.quantity)).sum) days)

/-- Days-until-stockout computation of get_low_stock_alerts
(lines 179-200): group absent gives none, else guard days_with_sales,
compute the average and truncate stock divided by it when positive. -/
def stockoutNonOpt (q days : Int) (recent : Option (Int × Nat)) :
    Option Int :=
  match recent with
  | none => none
  | some (total, dws) =>
    if 0 < dws then
      let avg := averageDailySales total days
      if 0 < avg then some (pyTrunc ((q : ℚ) / avg)) else none
    else none

/-- Days-until-stockout computation of get_low_stock_alerts_optimized
(lines 355-357); the first conjunct is the Python truthiness test. -/
def stockoutOpt (q : Int) (avg : Option ℚ) : Option Int :=
  match avg with
  | none => none
  | some a =>
    if a != 0 && decide (0 < a) then some (pyTrunc ((q : ℚ) / a)) else none

/-- Supplier block of an alert. -/
structure SupplierInfo where
  id : Int
  name : String
  contact_email : Option String
deriving DecidableEq

/-- One alert object of the response body. -/
structure Alert where
  product_id : Int
  product_name : String
  sku : String
  warehouse_id : Int
  warehouse_name : String
  current_stock : Int
  threshold : Int
  days_until_stockout : Option Int
  supplier : Option SupplierInfo
deriving DecidableEq

/-- Per-row body of the loop of get_low_stock_alerts (lines 157-224):
skip when the pair has no recent sales and include_no_sales is false, else
emit the alert. -/
def processRow (db : DB) (cutoff : Int) (pids : List Int) (incl : Bool)
    (days : Int) (r : JoinedRow) : Option Alert :=
  let threshold :=
    resolveThreshold r.inv.low_stock_threshold (typeDefault r.ptype)
  let recent := recentGroup db cutoff pids r.product.id r.warehouse.id
  if recent.isNone && !incl then none
  else
    some { product_id := r.product.id, product_name := r.product.name,
           sku := r.product.sku, warehouse_id := r.warehouse.id,
           warehouse_name := r.warehouse.name,
           current_stock := r.inv.quantity, threshold := threshold,
           days_until_stockout := stockoutNonOpt r.inv.quantity days recent,
           supplier := r.supplier.map
             (fun s => { id := s.id, name := s.name,
                         contact_email := s.contact_email }) }

/-- Alert built from one row of the optimized query (lines 344-377); the
supplier test is Python truthiness of the joined supplier id. -/
def mkAlertOpt (db : DB) (cutoff days : Int) (r : JoinedRow) : Alert :=
  { product_id := r.inv.product_id, product_name := r.product.name,
    sku := r.product.sku, warehouse_id := r.inv.warehouse_id,
    warehouse_name := r.warehouse.name, current_stock := r.inv.quantity,
    threshold :=
      resolveThreshold r.inv.low_stock_threshold (typeDefault r.ptype),
    days_until_stockout := stockoutOpt r.inv.quantity
      (avgGroupOpt db cutoff days r.inv.product_id r.inv.warehouse_id),
    supplier :=
      match r.supplier with
      | some s =>
        if s.id == 0 then none
        else some { id := s.id, name := s.name,
                    contact_email := s.contact_email }
      | none => none }

/-- Filter of the optimized query that drops pairs without recent sales
unless include_no_sales is set (lines 337-339). -/
def filterNoSales (db : DB) (cutoff days : Int) (incl : Bool)
    (rows : List JoinedRow) : List JoinedRow :=
  if incl then rows
  else rows.filter (fun r =>
    (avgGroupOpt db cutoff days r.inv.product_id r.inv.warehouse_id).isSome)

/-- Sort key comparison: the Python key is the pair (value is absent, value
or infinity), compared lexicographically; this is its strict order. -/
def alertKeyLt (a b : Alert) : Bool :=
  match a.days_until_stockout, b.days_until_stockout with
  | some x, some y => decide (x < y)
  | some _, none => true
  | none, _ => false

/-- Stable insertion into a sorted list: walk past strictly smaller keys so
that an element never moves before an equal key that preceded it. -/
def insertOrd (lt : Alert → Alert → Bool) (x : Alert) :
    List Alert → List Alert
  | [] => [x]
  | y :: ys => if lt y x then y :: insertOrd lt x ys else x :: y :: ys

/-- Stable sort modelling Python list.sort, which is stable; any stable
sort computes the same list. -/
def sortStable (lt : Alert → Alert → Bool) : List Alert → List Alert
  | [] => []
  | x :: xs => insertOrd lt x (sortStable lt xs)

/-- Unsorted alert list of get_low_stock_alerts: join, low-stock filter,
per-row enrichment in fetch order. -/
def assembleNonOpt (db : DB) (cutoff days : Int) (incl : Bool) (cid : Int) :
    List Alert :=
  let wids := (db.warehouses.filter (fun w => w.company_id == cid)).map
    (fun w => w.id)
  let rows := (joinedRows db).filter (fun r =>
    wids.contains r.inv.warehouse_id &&
    lowStockCond r.inv.quantity r.inv.low_stock_threshold
      (typeDefault r.ptype))
  let pids := rows.map (fun r => r.product.id)
  rows.filterMap (processRow db cutoff pids incl days)

/-- Unsorted alert list of get_low_stock_alerts_optimized. -/
def assembleOpt (db : DB) (cutoff days : Int) (incl : Bool) (cid : Int) :
    List Alert :=
  let wids := (db.warehouses.filter (fun w => w.company_id == cid)).map
    (fun w => w.id)
  let rows := (joinedRows db).filter (fun r =>
    wids.contains r.inv.warehouse_id &&
    lowStockCondOpt r.inv.quantity r.inv.low_stock_threshold
      (typeDefault r.ptype))
  (filterNoSales db cutoff days incl rows).map (mkAlertOpt db cutoff days)

/-- Outcome of an alerts request: 404, 400, or 200 with the alert list;
total_alerts of the body is the length of that list. -/
inductive AlertsResult where
  | notFound : AlertsResult
  | invalidDays : AlertsResult
  | ok : List Alert → AlertsResult
deriving DecidableEq

/-- HTTP status of an alerts outcome. -/
def statusAlerts : AlertsResult → Nat
  | .notFound => 404
  | .invalidDays => 400
  | .ok _ => 200

/-- Value of the total_alerts field of an alerts response body. -/
def totalAlerts : AlertsResult → Nat
  | .ok l => l.length
  | _ => 0

/-- The endpoint get_low_stock_alerts: company check, days check, then the
assembled list sorted by urgency.  The early empty-list returns of the
source (no warehouses, no low-stock rows) produce the same value as the
full pipeline, which is empty in those cases. -/
def get_low_stock_alerts (db : DB) (now cid days : Int) (incl : Bool) :
    AlertsResult :=
  match db.companies.find? (fun c => c.id == cid) with
  | none => .notFound
  | some _ =>
    if days ≤ 0 then .invalidDays
    else .ok (sortStable alertKeyLt (assembleNonOpt db (now - days) days incl cid))

/-- The endpoint get_low_stock_alerts_optimized. -/
def get_low_stock_alerts_optimized (db : DB) (now cid days : Int)
    (incl : Bool) : AlertsResult :=
  match db.companies.find? (fun c => c.id == cid) with
  | none => .notFound
  | some _ =>
    if days ≤ 0 then .invalidDays
    else .ok (sortStable alertKeyLt (assembleOpt db (now - days) days incl cid))

/- Product creation endpoint, from fixed_create_product.py. -/

/-- Request body for POST /products; a field is none when the key is absent
from the JSON object. -/
structure CPReq where
  name : Option JVal
  sku : Option JVal
  price : Option JVal
  warehouse_id : Option JVal
  initial_quantity : Option JVal
  description : Option JVal
  supplier_id : Option JVal
  product_type_id : Option JVal
deriving DecidableEq

/-- Outcome categories of create_product, one per return site. -/
inductive CPResult where
  | validationError : String → CPResult
  | notFoundRef : String → CPResult
  | conflict : Option Int → CPResult
  | integrityError : CPResult
  | internalError : CPResult
  | created : Int → CPResult
deriving DecidableEq

/-- HTTP status of a create_product outcome. -/
def statusCP : CPResult → Nat
  | .validationError _ => 400
  | .notFoundRef _ => 404
  | .conflict _ => 409
  | .integrityError => 400
  | .internalError => 500
  | .created _ => 201

/-- Fresh primary key assigned by the flush, one past the largest id. -/
def freshProductId (db : DB) : Int :=
  (db.products.map (fun p => p.id)).foldl max 0 + 1

/-- Fresh primary key for the new inventory row. -/
def freshInventoryId (db : DB) : Int :=
  (db.inventories.map (fun i => i.id)).foldl max 0 + 1

/-- Description expression of create_product (source line 97): a falsy or
absent value yields no description; a truthy string is stripped; a truthy
non-string value has no strip method, so the AttributeError falls through
to the outermost handler as a 500, embedded as internalError. -/
def descriptionStep : Option JVal → CPResult ⊕ Option String
  | none => .inr none
  | some d =>
    if truthy d then
      match d with
      | .jstr str => .inr (some (pyStrip str))
      | _ => .inl .internalError
    else .inr none

/-- Raw product_type_id handling of create_product (source line 99): the
value is passed unvalidated into the insert.  An absent or null value is
stored as NULL and an integer (Python bools included, being ints) as
itself; any other value cannot be bound to the integer column, so the
flush raises a non-integrity database error that the inner handler
answers with rollback and 500 — returned as none here. -/
def productTypeIdStep : Option JVal → Option (Option Int)
  | none => some none
  | some .jnull => some none
  | some (.jbool b) => some (some (if b then 1 else 0))
  | some (.jint n) => some (some n)
  | some _ => none

/-- Supplier validation step of create_product (source lines 98-111):
skip when absent or null, else parse the id and require the row to exist. -/
def supplierStep (db : DB) (rsup : Option JVal) : CPResult ⊕ Option Int :=
  match rsup with
  | none => .inr none
  | some .jnull => .inr none
  | some v =>
    match pyIntJ v with
    | none => .inl (.validationError "supplier_id")
    | some sid =>
      match db.suppliers.find? (fun s => s.id == sid) with
      | none => .inl (.notFoundRef "supplier")
      | some _ => .inr (some sid)

/-- The endpoint create_product.  Concurrency and failure are modelled by
two extra inputs: race holds product rows committed by concurrent requests
between the pre-write SKU check and the flush of the product insert, so
the database unique check sees them while the pre-write check does not;
fault injects a non-integrity exception later in the transaction block
(for example a failing inventory insert), which the source answers with
rollback and a 500.  At the flush of the product insert, an unbindable
product_type_id value errors before the constraints are evaluated, and
the SKU unique violation errors before any later fault can occur, fixing
the order of the three transaction-failure checks below.  On every
outcome other than created, the returned store is the unchanged input
store: the rollback discards the staged product, inventory and
transaction rows.  The non-integer warehouse_id conversion at source
line 84 is outside every per-field try/except, so its failure falls
through to the outermost handler as a 500; this is embedded as
internalError. -/
def create_product (db : DB) (req : CPReq) (race : List Product)
    (fault : Bool) : CPResult × DB :=
  match req.name, req.sku, req.price, req.warehouse_id,
        req.initial_quantity with
  | some nameJ, some skuJ, some priceJ, some whJ, some qtyJ =>
    let sku := pyStrip (pyStr skuJ)
    if sku == "" then (.validationError "sku", db)
    else
      match db.products.find? (fun p => p.sku == sku) with
      | some existing => (.conflict (some existing.id), db)
      | none =>
        match pyFloat priceJ with
        | none => (.validationError "price", db)
        | some price =>
          if price < 0 then (.validationError "price", db)
          else
            match pyIntJ qtyJ with
            | none => (.validationError "initial_quantity", db)
            | some iq =>
              if iq < 0 then (.validationError "initial_quantity", db)
              else
                match pyIntJ whJ with
                | none => (.internalError, db)
                | some wid =>
                  match db.warehouses.find? (fun w => w.id == wid) with
                  | none => (.notFoundRef "warehouse", db)
                  | some _ =>
                    let name := pyStrip (pyStr nameJ)
                    if name == "" then (.validationError "name", db)
                    else
                      match descriptionStep req.description with
                      | .inl e => (e, db)
                      | .inr descr =>
                        match supplierStep db req.supplier_id with
                        | .inl e => (e, db)
                        | .inr supplier_id =>
                          match productTypeIdStep req.product_type_id with
                          | none => (.internalError, db)
                          | some ptid =>
                            let pid := freshProductId db
                            let product : Product :=
                              { id := pid, sku := sku, name := name,
                                price := price, description := descr,
                                product_type_id := ptid,
                                supplier_id := supplier_id }
                            if (db.products ++ race).any
                                (fun p => p.sku == sku) then
                              (.conflict none, db)
                            else if fault then (.internalError, db)
                            else
                              let inv : Inventory :=
                                { id := freshInventoryId db,
                                  product_id := pid, warehouse_id := wid,
                                  quantity := iq,
                                  low_stock_threshold := none }
                              let tx : InventoryTransaction :=
                                { product_id := pid, warehouse_id := wid,
                                  transaction_type := "initial_stock",
                                  quantity_change := iq,
                                  quantity_before := 0,
                                  quantity_after := iq,
                                  notes := "Initial stock for new product "
                                    ++ sku }
                              (.created pid,
                                { db with
                                  products := db.products ++ [product],
                                  inventories := db.inventories ++ [inv],
                                  invTransactions :=
                                    db.invTransactions ++ [tx] })
  | _, _, _, _, _ => (.validationError "missing required fields", db)

/- Helper lemmas about the embedded operations. -/

/-- The or_ low-stock condition and the coalesce low-stock condition agree. -/
theorem lowStockCond_eq_opt (q : Int) (ov td : Option Int) :
    lowStockCond q ov td = lowStockCondOpt q ov td := by
  cases ov <;> cases td <;>
    simp [lowStockCond, lowStockCondOpt, Option.getD]

/-- Both low-stock conditions test strict comparison against the resolved
threshold. -/
theorem lowStockCond_iff (q : Int) (ov td : Option Int) :
    lowStockCond q ov td = true ↔ q < resolveThreshold ov td := by
  cases ov <;> cases td <;>
    simp [lowStockCond, resolveThreshold]

/-- The resolved threshold is the fallback chain. -/
theorem resolveThreshold_eq_getD (ov td : Option Int) :
    resolveThreshold ov td = ov.getD (td.getD 10) := by
  cases ov <;> cases td <;> simp [resolveThreshold, Option.getD]

/-- The sort key order is asymmetric. -/
theorem alertKeyLt_asymm (a b : Alert) (h : alertKeyLt a b = true) :
    alertKeyLt b a = false := by
  unfold alertKeyLt at h ⊢
  cases ha : a.days_until_stockout <;> cases hb : b.days_until_stockout <;>
    simp [ha, hb] at h ⊢ <;> omega

/-- The complement of the sort key order is transitive. -/
theorem alertKeyLt_not_trans (a b c : Alert) (h1 : alertKeyLt b a = false)
    (h2 : alertKeyLt c b = false) : alertKeyLt c a = false := by
  unfold alertKeyLt at h1 h2 ⊢
  cases ha : a.days_until_stockout <;> cases hb : b.days_until_stockout <;>
    cases hc : c.days_until_stockout <;> simp [ha, hb, hc] at h1 h2 ⊢ <;>
    omega

/-- Stable insertion permutes with consing. -/
theorem insertOrd_perm (lt : Alert → Alert → Bool) (x : Alert) :
    ∀ l : List Alert, (insertOrd lt x l).Perm (x :: l)
  | [] => List.Perm.refl _
  | y :: ys => by
    simp only [insertOrd]
    split
    · exact ((insertOrd_perm lt x ys).cons y).trans (List.Perm.swap x y ys)
    · exact List.Perm.refl _

/-- The stable sort is a permutation of its input. -/
theorem sortStable_perm (lt : Alert → Alert → Bool) :
    ∀ l : List Alert, (sortStable lt l).Perm l
  | [] => List.Perm.refl _
  | x :: xs =>
    (insertOrd_perm lt x (sortStable lt xs)).trans
      ((sortStable_perm lt xs).cons x)

/-- Stable insertion into a sorted list stays sorted. -/
theorem insertOrd_pairwise (lt : Alert → Alert → Bool)
    (hasymm : ∀ a b, lt a b = true → lt b a = false)
    (htrans : ∀ a b c, lt b a = false → lt c b = false → lt c a = false)
    (x : Alert) :
    ∀ l : List Alert, l.Pairwise (fun a b => lt b a = false) →
      (insertOrd lt x l).Pairwise (fun a b => lt b a = false)
  | [], _ => by simp [insertOrd]
  | y :: ys, h => by
    rw [List.pairwise_cons] at h
    obtain ⟨hy, hys⟩ := h
    simp only [insertOrd]
    split
    case isTrue hlt =>
      rw [List.pairwise_cons]
      refine ⟨?_, insertOrd_pairwise lt hasymm htrans x ys hys⟩
      intro z hz
      rcases List.mem_cons.mp ((insertOrd_perm lt x ys).mem_iff.mp hz) with
        rfl | hzys
      · exact hasymm y z hlt
      · exact hy z hzys
    case isFalse hnlt =>
      rw [List.pairwise_cons]
      constructor
      · intro z hz
        rcases List.mem_cons.mp hz with rfl | hzys
        · exact Bool.eq_false_iff.mpr hnlt
        · exact htrans x y z (Bool.eq_false_iff.mpr hnlt) (hy z hzys)
      · exact List.pairwise_cons.mpr ⟨hy, hys⟩

/-- The stable sort is sorted for the complement order. -/
theorem sortStable_pairwise (lt : Alert → Alert → Bool)
    (hasymm : ∀ a b, lt a b = true → lt b a = false)
    (htrans : ∀ a b c, lt b a = false → lt c b = false → lt c a = false) :
    ∀ l : List Alert,
      (sortStable lt l).Pairwise (fun a b => lt b a = false)
  | [] => List.Pairwise.nil
  | x :: xs =>
    insertOrd_pairwise lt hasymm htrans x (sortStable lt xs)
      (sortStable_pairwise lt hasymm htrans xs)

/-- Filtering away the inserted element commutes with insertion. -/
theorem filter_insertOrd_neg (lt : Alert → Alert → Bool) (x : Alert)
    (p : Alert → Bool) (hx : p x = false) :
    ∀ l : List Alert, (insertOrd lt x l).filter p = l.filter p
  | [] => by simp [insertOrd, hx]
  | y :: ys => by
    simp only [insertOrd]
    split
    · rw [List.filter_cons, List.filter_cons,
        filter_insertOrd_neg lt x p hx ys]
    · simp [List.filter_cons, hx]

/-- Insertion of an element that no kept element strictly precedes places it
at the front of the filtered list. -/
theorem filter_insertOrd_pos (lt : Alert → Alert → Bool) (x : Alert)
    (p : Alert → Bool) (hx : p x = true)
    (hp : ∀ y, p y = true → lt y x = false) :
    ∀ l : List Alert, (insertOrd lt x l).filter p = x :: l.filter p
  | [] => by simp [insertOrd, hx]
  | y :: ys => by
    simp only [insertOrd]
    split
    case isTrue hlt =>
      have hpy : p y = false := by
        cases hpy : p y
        · rfl
        · exact absurd hlt (by simp [hp y hpy])
      rw [List.filter_cons, List.filter_cons]
      simp only [hpy, if_neg Bool.false_ne_true,
        filter_insertOrd_pos lt x p hx hp ys]
    case isFalse =>
      simp [List.filter_cons, hx]

/-- Stability of the sort: the sublist carrying one fixed key value is
untouched, provided the order never separates elements that share it. -/
theorem filter_sortStable (lt : Alert → Alert → Bool) (p : Alert → Bool)
    (hp : ∀ a b, p a = true → p b = true → lt a b = false) :
    ∀ l : List Alert, (sortStable lt l).filter p = l.filter p
  | [] => rfl
  | x :: xs => by
    simp only [sortStable]
    cases hx : p x
    · rw [filter_insertOrd_neg lt x p hx,
        filter_sortStable lt p hp xs, List.filter_cons]
      simp [hx]
    · rw [filter_insertOrd_pos lt x p hx (fun y hy => hp y x hy hx),
        filter_sortStable lt p hp xs, List.filter_cons]
      simp [hx]

/-- A successfully joined row agrees with its inventory row on the join
keys, and its supplier comes from the suppliers table. -/
theorem joinRow_spec (db : DB) (inv : Inventory) (r : JoinedRow)
    (h : joinRow db inv = some r) :
    r.inv = inv ∧ r.product.id = inv.product_id ∧
      r.warehouse.id = inv.warehouse_id ∧
      ∀ s, r.supplier = some s → s ∈ db.suppliers := by
  unfold joinRow at h
  split at h
  case h_1 p w hp hw =>
    obtain rfl : _ = r := Option.some.inj h
    refine ⟨rfl, ?_, ?_, ?_⟩
    · exact eq_of_beq (by simpa using List.find?_some hp)
    · exact eq_of_beq (by simpa using List.find?_some hw)
    · intro s hs
      simp only at hs
      rcases Option.bind_eq_some.mp hs with ⟨sid, _, hfind⟩
      exact List.mem_of_find?_eq_some hfind
  case h_2 =>
    exact absurd h (by simp)

/-- Every member of the joined row list is a join of some inventory row. -/
theorem mem_joinedRows (db : DB) (r : JoinedRow) (h : r ∈ joinedRows db) :
    r.product.id = r.inv.product_id ∧ r.warehouse.id = r.inv.warehouse_id ∧
      ∀ s, r.supplier = some s → s ∈ db.suppliers := by
  rcases List.mem_filterMap.mp h with ⟨inv, _, hjoin⟩
  obtain ⟨hinv, hp, hw, hs⟩ := joinRow_spec db inv r hjoin
  exact ⟨hinv ▸ hp, hinv ▸ hw, hs⟩

/-- When the looked-up product id is in the product id list, the extra
in-list restriction of the grouped subquery is redundant. -/
theorem windowSales_eq_matching (db : DB) (cutoff : Int) (pids : List Int)
    (pid wid : Int) (hmem : pids.contains pid = true) :
    windowSales db cutoff pids pid wid = matchingSales db cutoff pid wid := by
  unfold windowSales matchingSales
  apply List.filter_congr
  intro s _
  cases hs : s.product_id == pid
  · simp [hs]
  · have hpe : s.product_id = pid := eq_of_beq hs
    have hp : pid ∈ pids := by simpa using hmem
    simp [hpe, hs, hp]

/-- A pair without window sales has an empty group even under the extra
in-list restriction. -/
theorem windowSales_nil (db : DB) (cutoff : Int) (pids : List Int)
    (pid wid : Int) (h : matchingSales db cutoff pid wid = []) :
    windowSales db cutoff pids pid wid = [] := by
  unfold matchingSales at h
  unfold windowSales
  rw [List.filter_eq_nil_iff] at h ⊢
  intro s hsmem hcontra
  apply h s hsmem
  simp only [Bool.and_eq_true] at hcontra ⊢
  exact ⟨⟨hcontra.1.1.1, hcontra.1.2⟩, hcontra.2⟩

/-- A pair without window sales yields no group row in the subquery of
get_low_stock_alerts. -/
theorem recentGroup_none (db : DB) (cutoff : Int) (pids : List Int)
    (pid wid : Int) (h : matchingSales db cutoff pid wid = []) :
    recentGroup db cutoff pids pid wid = none := by
  unfold recentGroup
  rw [windowSales_nil db cutoff pids pid wid h]
  rfl

/-- The optimized average subquery yields no row exactly for a pair without
window sales. -/
theorem avgGroupOpt_none_iff (db : DB) (cutoff days : Int) (pid wid : Int) :
    avgGroupOpt db cutoff days pid wid = none ↔
      matchingSales db cutoff pid wid = [] := by
  unfold avgGroupOpt
  cases h : (matchingSales db cutoff pid wid).isEmpty
  · have hne : matchingSales db cutoff pid wid ≠ [] := by
      intro hnil
      rw [hnil] at h
      simp at h
    simp [h, hne]
  · simp [h, List.isEmpty_iff.mp h]

/-- Group lookup with a redundant in-list restriction, rephrased over the
unrestricted window sales. -/
theorem recentGroup_eq (db : DB) (cutoff : Int) (pids : List Int)
    (pid wid : Int) (hmem : pids.contains pid = true) :
    recentGroup db cutoff pids pid wid =
      (if (matchingSales db cutoff pid wid).isEmpty then none
       else some
         (((matchingSales db cutoff pid wid).map (fun s => s.quantity)).sum,
          (((matchingSales db cutoff pid wid).map
            (fun s => s.sale_date)).dedup).length)) := by
  unfold recentGroup
  rw [windowSales_eq_matching db cutoff pids pid wid hmem]

/-- A nonempty group has a positive count of distinct sale dates. -/
theorem dedupDates_pos (ms : List Sale) (h : ms.isEmpty = false) :
    0 < ((ms.map (fun s => s.sale_date)).dedup).length := by
  rcases ms with _ | ⟨s, rest⟩
  · simp at h
  · simp only [List.map_cons]
    apply List.length_pos.mpr
    rw [ne_eq, List.dedup_eq_nil]
    simp

/-- With a positive distinct-day count, the two per-row stockout
computations agree on a present group. -/
theorem stockout_eq (q days total : Int) (dws : Nat) (hdws : 0 < dws) :
    stockoutNonOpt q days (some (total, dws)) =
      stockoutOpt q (some (averageDailySales total days)) := by
  unfold stockoutNonOpt stockoutOpt
  simp only [if_pos hdws]
  by_cases ha : 0 < averageDailySales total days
  · have h0 : (averageDailySales total days != 0) = true := by
      simpa using ne_of_gt ha
    simp [ha, h0]
  · have h0 : decide (0 < averageDailySales total days) = false := by
      simpa using ha
    simp [ha, h0]

/-- Per-row agreement of the two endpoints: with the redundant product-id
restriction satisfied, the join keys aligned, and no zero supplier id, the
loop body of get_low_stock_alerts produces exactly the row the optimized
query keeps, or drops exactly the row it drops. -/
theorem processRow_eq_opt (db : DB) (cutoff days : Int) (incl : Bool)
    (pids : List Int) (r : JoinedRow)
    (hpid : pids.contains r.product.id = true)
    (hp : r.product.id = r.inv.product_id)
    (hw : r.warehouse.id = r.inv.warehouse_id)
    (hsup : ∀ s, r.supplier = some s → s.id ≠ 0) :
    processRow db cutoff pids incl days r =
      (if incl || (avgGroupOpt db cutoff days r.inv.product_id
          r.inv.warehouse_id).isSome then
        some (mkAlertOpt db cutoff days r)
      else none) := by
  have hsupeq : r.supplier.map
      (fun s =>
        ({ id := s.id, name := s.name, contact_email := s.contact_email } :
          SupplierInfo)) =
      (match r.supplier with
       | some s =>
         if s.id == 0 then none
         else some
           { id := s.id, name := s.name, contact_email := s.contact_email }
       | none => none) := by
    cases h : r.supplier with
    | none => rfl
    | some s =>
      have hne : (s.id == 0) = false := by
        simpa using hsup s h
      simp [hne]
  rw [hp] at hpid
  cases hE : (matchingSales db cutoff r.inv.product_id
      r.inv.warehouse_id).isEmpty
  case false =>
    have hdws := dedupDates_pos _ hE
    have hso := stockout_eq r.inv.quantity days
      (((matchingSales db cutoff r.inv.product_id
        r.inv.warehouse_id).map (fun s => s.quantity)).sum) _ hdws
    have hrg : recentGroup db cutoff pids r.inv.product_id
        r.inv.warehouse_id = some
          (((matchingSales db cutoff r.inv.product_id
            r.inv.warehouse_id).map (fun s => s.quantity)).sum,
           (((matchingSales db cutoff r.inv.product_id
            r.inv.warehouse_id).map (fun s => s.sale_date)).dedup).length) := by
      rw [recentGroup_eq db cutoff pids r.inv.product_id
        r.inv.warehouse_id hpid]
      simp [hE]
    have havg : avgGroupOpt db cutoff days r.inv.product_id
        r.inv.warehouse_id = some (averageDailySales
          (((matchingSales db cutoff r.inv.product_id
            r.inv.warehouse_id).map (fun s => s.quantity)).sum) days) := by
      unfold avgGroupOpt
      simp [hE]
    simp only [processRow, mkAlertOpt, hp, hw, hrg, havg, hso, hsupeq,
      Option.isNone_some, Bool.false_and, Bool.false_eq_true, if_false,
      Bool.or_true, Option.isSome_some, if_true]
  case true =>
    have hrg : recentGroup db cutoff pids r.inv.product_id
        r.inv.warehouse_id = none := by
      rw [recentGroup_eq db cutoff pids r.inv.product_id
        r.inv.warehouse_id hpid]
      simp [hE]
    have havg : avgGroupOpt db cutoff days r.inv.product_id
        r.inv.warehouse_id = none := by
      unfold avgGroupOpt
      simp [hE]
    simp only [processRow, mkAlertOpt, hp, hw, hrg, havg, hsupeq,
      Option.isNone_none, Bool.true_and, Option.isSome_none, Bool.or_false,
      stockoutNonOpt, stockoutOpt]
    cases incl
    · simp
    · simp

/-- List-level agreement: over rows satisfying the per-row side conditions,
the loop of get_low_stock_alerts equals map-after-filter of the optimized
query. -/
theorem filterMap_processRow_eq (db : DB) (cutoff days : Int) (incl : Bool)
    (pids : List Int) :
    ∀ l : List JoinedRow,
      (∀ r ∈ l, pids.contains r.product.id = true ∧
        r.product.id = r.inv.product_id ∧
        r.warehouse.id = r.inv.warehouse_id ∧
        ∀ s, r.supplier = some s → s.id ≠ 0) →
      l.filterMap (processRow db cutoff pids incl days) =
        (filterNoSales db cutoff days incl l).map (mkAlertOpt db cutoff days)
  | [], _ => by cases incl <;> simp [filterNoSales]
  | r :: l, h => by
    obtain ⟨hpid, hp, hw, hsup⟩ := h r (List.mem_cons_self r l)
    have ih := filterMap_processRow_eq db cutoff days incl pids l
      (fun x hx => h x (List.mem_cons_of_mem r hx))
    have hrow := processRow_eq_opt db cutoff days incl pids r hpid hp hw hsup
    cases incl
    · simp only [filterNoSales, if_neg Bool.false_ne_true] at ih ⊢
      rw [List.filterMap_cons, hrow]
      simp only [Bool.false_or]
      cases havg : (avgGroupOpt db cutoff days r.inv.product_id
          r.inv.warehouse_id).isSome
      · simp only [if_neg Bool.false_ne_true]
        rw [List.filter_cons, havg]
        simpa using ih
      · rw [List.filter_cons, havg]
        simp [ih]
    · simp only [filterNoSales, if_pos rfl] at ih ⊢
      rw [List.filterMap_cons, hrow]
      simp [ih]

/-- The two endpoints assemble the same unsorted alert list when no
supplier row carries id zero. -/
theorem assemble_eq (db : DB) (cutoff days : Int) (incl : Bool) (cid : Int)
    (hs : ∀ s ∈ db.suppliers, s.id ≠ 0) :
    assembleNonOpt db cutoff days incl cid =
      assembleOpt db cutoff days incl cid := by
  unfold assembleNonOpt assembleOpt
  have hcond : ∀ r : JoinedRow,
      (((db.warehouses.filter (fun w => w.company_id == cid)).map
          (fun w => w.id)).contains r.inv.warehouse_id &&
        lowStockCond r.inv.quantity r.inv.low_stock_threshold
          (typeDefault r.ptype)) =
      (((db.warehouses.filter (fun w => w.company_id == cid)).map
          (fun w => w.id)).contains r.inv.warehouse_id &&
        lowStockCondOpt r.inv.quantity r.inv.low_stock_threshold
          (typeDefault r.ptype)) := by
    intro r
    rw [lowStockCond_eq_opt]
  dsimp only
  rw [List.filter_congr (fun r _ => hcond r)]
  apply filterMap_processRow_eq
  intro r hr
  have hmem := List.mem_filter.mp hr
  obtain ⟨hp, hw, hsup⟩ := mem_joinedRows db r hmem.1
  refine ⟨?_, hp, hw, fun s hssome => hs s (hsup s hssome)⟩
  have hmap : r.product.id ∈ ((joinedRows db).filter (fun x =>
      (((db.warehouses.filter (fun w => w.company_id == cid)).map
        (fun w => w.id)).contains x.inv.warehouse_id &&
      lowStockCondOpt x.inv.quantity x.inv.low_stock_threshold
        (typeDefault x.ptype)))).map (fun x => x.product.id) :=
    List.mem_map_of_mem (fun x => x.product.id) hr
  simpa using hmap

/-- With the company present and a positive window, both endpoints answer
200 with their assembled, sorted lists. -/
theorem endpoints_ok (db : DB) (now cid days : Int) (incl : Bool) (c : Company)
    (hc : db.companies.find? (fun x => x.id == cid) = some c)
    (hd : ¬ days ≤ 0) :
    get_low_stock_alerts db now cid days incl =
      .ok (sortStable alertKeyLt
        (assembleNonOpt db (now - days) days incl cid)) ∧
    get_low_stock_alerts_optimized db now cid days incl =
      .ok (sortStable alertKeyLt
        (assembleOpt db (now - days) days incl cid)) := by
  unfold get_low_stock_alerts get_low_stock_alerts_optimized
  rw [hc]
  simp [hd]

/-- Facts carried by the complement of the key order: a present projection
never follows an absent one, and present values are ascending. -/
theorem alertKey_facts (a b : Alert) (h : alertKeyLt b a = false) :
    (a.days_until_stockout = none → b.days_until_stockout = none) ∧
    (∀ x y, a.days_until_stockout = some x →
      b.days_until_stockout = some y → x ≤ y) := by
  unfold alertKeyLt at h
  cases ha : a.days_until_stockout <;> cases hb : b.days_until_stockout <;>
    simp [ha, hb] at h ⊢ <;> omega

/-- Alerts sharing the sort key are never strictly ordered. -/
theorem alertKeyLt_of_eq_keys (a b : Alert)
    (h : a.days_until_stockout = b.days_until_stockout) :
    alertKeyLt a b = false := by
  unfold alertKeyLt
  cases hb : b.days_until_stockout <;> rw [h, hb] <;> simp

/-- An alert produced by the loop body reports the resolved threshold and
the raw inventory quantity. -/
theorem processRow_some (db : DB) (cutoff : Int) (pids : List Int)
    (incl : Bool) (days : Int) (r : JoinedRow) (a : Alert)
    (h : processRow db cutoff pids incl days r = some a) :
    a.threshold = resolveThreshold r.inv.low_stock_threshold
      (typeDefault r.ptype) ∧ a.current_stock = r.inv.quantity := by
  unfold processRow at h
  dsimp only at h
  split at h
  · exact absurd h (by simp)
  · obtain rfl : _ = a := Option.some.inj h
    exact ⟨rfl, rfl⟩

/-- Every alert assembled by get_low_stock_alerts comes from a joined row
that passed the low-stock filter. -/
theorem mem_assembleNonOpt (db : DB) (cutoff days : Int) (incl : Bool)
    (cid : Int) (a : Alert)
    (ha : a ∈ assembleNonOpt db cutoff days incl cid) :
    ∃ pids r, r ∈ joinedRows db ∧
      lowStockCond r.inv.quantity r.inv.low_stock_threshold
        (typeDefault r.ptype) = true ∧
      processRow db cutoff pids incl days r = some a := by
  unfold assembleNonOpt at ha
  dsimp only at ha
  rcases List.mem_filterMap.mp ha with ⟨r, hr, hproc⟩
  rcases List.mem_filter.mp hr with ⟨hrj, hcond⟩
  simp only [Bool.and_eq_true] at hcond
  exact ⟨_, r, hrj, hcond.2, hproc⟩

/-- A company without warehouses assembles an empty alert list. -/
theorem assembleNonOpt_nil (db : DB) (cutoff days : Int) (incl : Bool)
    (cid : Int)
    (h : db.warehouses.filter (fun w => w.company_id == cid) = []) :
    assembleNonOpt db cutoff days incl cid = [] := by
  unfold assembleNonOpt
  dsimp only
  rw [h]
  have : (joinedRows db).filter (fun r =>
      (([] : List Warehouse).map (fun w => w.id)).contains
        r.inv.warehouse_id &&
      lowStockCond r.inv.quantity r.inv.low_stock_threshold
        (typeDefault r.ptype)) = [] := by
    simp
  rw [this]
  rfl

/-- Python int() truncation agrees with the floor on nonnegative input. -/
theorem pyTrunc_eq_floor (x : ℚ) (h : 0 ≤ x) : pyTrunc x = ⌊x⌋ := by
  unfold pyTrunc
  rw [if_neg (not_lt.mpr h)]

/- Concrete stores used by witnesses and counterexamples. -/

/-- Example company one. -/
def exComp1 : Company :=
  { id := 1, name := "Co" }

/-- Example company two, owning no warehouse. -/
def exComp2 : Company :=
  { id := 2, name := "CoTwo" }

/-- Example warehouse of company one. -/
def exWh1 : Warehouse :=
  { id := 1, company_id := 1, name := "Main" }

/-- Example supplier with ordinary id. -/
def exSup5 : Supplier :=
  { id := 5, name := "Acme", contact_email := none }

/-- Example supplier with id zero. -/
def exSup0 : Supplier :=
  { id := 0, name := "ZeroCorp", contact_email := none }

/-- Example low-stock product supplied by exSup5. -/
def exProd1 : Product :=
  { id := 1, sku := "A", name := "ProdA", price := 5,
    description := none, product_type_id := none, supplier_id := some 5 }

/-- Example low-stock product supplied by exSup0. -/
def exProd0 : Product :=
  { id := 1, sku := "A", name := "ProdA", price := 5,
    description := none, product_type_id := none, supplier_id := some 0 }

/-- Example inventory row with quantity below the default threshold. -/
def exInv1 : Inventory :=
  { id := 1, product_id := 1, warehouse_id := 1,
    quantity := 3, low_stock_threshold := none }

/-- Example store: one company with one warehouse and one low-stock
product, no sales, and a second company without warehouses. -/
def exDB1 : DB :=
  { companies := [exComp1, exComp2], warehouses := [exWh1],
    suppliers := [exSup5], productTypes := [], products := [exProd1],
    inventories := [exInv1], invTransactions := [], sales := [] }

/-- Example store whose only supplier has id zero. -/
def exDB0 : DB :=
  { companies := [exComp1], warehouses := [exWh1],
    suppliers := [exSup0], productTypes := [], products := [exProd0],
    inventories := [exInv1], invTransactions := [], sales := [] }

/-- Example store with three window sales of quantities 5, 5 and 10 spread
over two distinct days. -/
def exDBsales : DB :=
  { companies := [exComp1], warehouses := [exWh1],
    suppliers := [exSup5], productTypes := [], products := [exProd1],
    inventories := [exInv1], invTransactions := [],
    sales :=
      [{ product_id := 1, warehouse_id := 1, quantity := 5,
         sale_date := 80 },
       { product_id := 1, warehouse_id := 1, quantity := 5,
         sale_date := 80 },
       { product_id := 1, warehouse_id := 1, quantity := 10,
         sale_date := 82 }] }

/-- Example joined row of exDB1. -/
def exRow : JoinedRow :=
  { inv := exInv1, product := exProd1, warehouse := exWh1,
    ptype := none, supplier := some exSup5 }

/- Claim theorems. -/

/-- Claim C1: for every (product, warehouse) pair with at least one Sale
row inside the trailing window, both velocity estimators report
sum(quantity) / days — the requested window length in the denominator, not
the number of distinct sale days: the optimized subquery emits exactly
that value, and the grouped subquery of the plain endpoint carries the
same total, divided by days in the loop body. -/
theorem claim_C1_velocity (db : DB) (cutoff days : Int) (pids : List Int)
    (pid wid : Int) (hpid : pids.contains pid = true)
    (hne : matchingSales db cutoff pid wid ≠ []) :
    avgGroupOpt db cutoff days pid wid =
      some (averageDailySales (salesSum db cutoff pid wid) days) ∧
    averageDailySales (salesSum db cutoff pid wid) days =
      (salesSum db cutoff pid wid : ℚ) / (days : ℚ) ∧
    ∃ dws, recentGroup db cutoff pids pid wid =
      some (salesSum db cutoff pid wid, dws) := by
  have hE : (matchingSales db cutoff pid wid).isEmpty = false := by
    cases hEE : (matchingSales db cutoff pid wid).isEmpty
    · rfl
    · exact absurd (List.isEmpty_iff.mp hEE) hne
  refine ⟨?_, rfl, ?_⟩
  · unfold avgGroupOpt salesSum
    simp [hE]
  · refine ⟨(((matchingSales db cutoff pid wid).map
        (fun s => s.sale_date)).dedup).length, ?_⟩
    rw [recentGroup_eq db cutoff pids pid wid hpid]
    unfold salesSum
    simp [hE]

/-- Claim C1 witness: quantities 5, 5 and 10 inside a 30-day window give a
velocity of 20/30 even though the sales fall on just 2 distinct days. -/
theorem claim_C1_witness :
    matchingSales exDBsales 70 1 1 ≠ [] ∧
    avgGroupOpt exDBsales 70 30 1 1 = some ((20 : ℚ) / 30) ∧
    recentGroup exDBsales 70 [1] 1 1 = some (20, 2) ∧
    (20 : ℚ) / 30 ≠ (20 : ℚ) / 2 := by
  have h := claim_C1_velocity exDBsales 70 30 [1] 1 1 (by decide) (by decide)
  refine ⟨by decide, ?_, by decide, by norm_num⟩
  rw [h.1, show salesSum exDBsales 70 1 1 = 20 from by decide]
  unfold averageDailySales
  norm_num

/-- Claim C2: a row is treated as low stock exactly when its quantity is
strictly below the resolved threshold (override, else type default, else
10), in both SQL filters; the emitted alert reports that resolved
threshold and the raw quantity; and every returned alert satisfies the
strict comparison. -/
theorem claim_C2_threshold :
    (∀ (q : Int) (ov td : Option Int),
      (lowStockCond q ov td = true ↔ q < resolveThreshold ov td) ∧
      (lowStockCondOpt q ov td = true ↔ q < resolveThreshold ov td) ∧
      resolveThreshold ov td = ov.getD (td.getD 10)) ∧
    (∀ (db : DB) (cutoff : Int) (pids : List Int) (incl : Bool)
      (days : Int) (r : JoinedRow) (a : Alert),
      processRow db cutoff pids incl days r = some a →
      a.threshold = resolveThreshold r.inv.low_stock_threshold
        (typeDefault r.ptype) ∧ a.current_stock = r.inv.quantity) ∧
    (∀ (db : DB) (now cid days : Int) (incl : Bool) (l : List Alert),
      get_low_stock_alerts db now cid days incl = .ok l →
      ∀ a ∈ l, a.current_stock < a.threshold) := by
  refine ⟨?_, ?_, ?_⟩
  · intro q ov td
    refine ⟨lowStockCond_iff q ov td, ?_, resolveThreshold_eq_getD ov td⟩
    rw [← lowStockCond_eq_opt]
    exact lowStockCond_iff q ov td
  · intro db cutoff pids incl days r a h
    exact processRow_some db cutoff pids incl days r a h
  · intro db now cid days incl l hok a ha
    unfold get_low_stock_alerts at hok
    cases hc : db.companies.find? (fun c => c.id == cid) with
    | none => rw [hc] at hok; exact absurd hok (by simp)
    | some c =>
      rw [hc] at hok
      by_cases hd : days ≤ 0
      · rw [if_pos hd] at hok
        exact absurd hok (by simp)
      · rw [if_neg hd] at hok
        obtain rfl : _ = l := AlertsResult.ok.inj hok
        have hmem : a ∈ assembleNonOpt db (now - days) days incl cid :=
          (sortStable_perm alertKeyLt _).mem_iff.mp ha
        rcases mem_assembleNonOpt db (now - days) days incl cid a hmem with
          ⟨pids, r, _, hlow, hproc⟩
        obtain ⟨hth, hcs⟩ :=
          processRow_some db (now - days) pids incl days r a hproc
        rw [hth, hcs]
        exact (lowStockCond_iff _ _ _).mp hlow

/-- Claim C2 witness: quantity 9 is low stock against the default
threshold 10, quantity 10 is not, and the resolved default is 10. -/
theorem claim_C2_witness :
    lowStockCond 9 none none = true ∧ lowStockCond 10 none none = false ∧
    resolveThreshold none none = 10 := by
  refine ⟨(claim_C2_threshold.1 9 none none).1.mpr ?_, ?_, ?_⟩
  · rw [(claim_C2_threshold.1 9 none none).2.2]
    decide
  · have h := (claim_C2_threshold.1 10 none none).1
    cases hc : lowStockCond 10 none none
    · rfl
    · have := h.mp hc
      rw [(claim_C2_threshold.1 10 none none).2.2] at this
      exact absurd this (by decide)
  · rw [(claim_C2_threshold.1 10 none none).2.2]
    decide

/-- Claim C3: with nonnegative stock, both stockout projectors return
nothing on an absent velocity, floor(stock / velocity) on a positive
velocity, and nothing on a nonpositive velocity (in the plain endpoint the
velocity of a present group is total / days, guarded by a positive
distinct-day count). -/
theorem claim_C3_stockout (q days total : Int) (dws : Nat) (a : ℚ)
    (hq : 0 ≤ q) :
    stockoutOpt q none = none ∧
    (0 < a → stockoutOpt q (some a) = some ⌊(q : ℚ) / a⌋) ∧
    (a ≤ 0 → stockoutOpt q (some a) = none) ∧
    stockoutNonOpt q days none = none ∧
    (0 < dws → 0 < averageDailySales total days →
      stockoutNonOpt q days (some (total, dws)) =
        some ⌊(q : ℚ) / averageDailySales total days⌋) ∧
    (0 < dws → averageDailySales total days ≤ 0 →
      stockoutNonOpt q days (some (total, dws)) = none) := by
  have hqQ : (0 : ℚ) ≤ (q : ℚ) := by exact_mod_cast hq
  refine ⟨rfl, ?_, ?_, rfl, ?_, ?_⟩
  · intro ha
    unfold stockoutOpt
    dsimp only
    have hcond : (a != 0 && decide (0 < a)) = true := by
      simp [ha, ne_of_gt ha]
    rw [if_pos hcond, pyTrunc_eq_floor _ (div_nonneg hqQ (le_of_lt ha))]
  · intro ha
    unfold stockoutOpt
    dsimp only
    have hcond : (a != 0 && decide (0 < a)) = false := by
      simp [not_lt.mpr ha]
    rw [if_neg (by simp [hcond])]
  · intro hdws ha
    unfold stockoutNonOpt
    simp only [if_pos hdws, if_pos ha]
    rw [pyTrunc_eq_floor _ (div_nonneg hqQ (le_of_lt ha))]
  · intro hdws ha
    unfold stockoutNonOpt
    simp only [if_pos hdws]
    rw [if_neg (not_lt.mpr ha)]

/-- Claim C3 witness: stock 20 at velocity 2 projects 10 days; an absent
velocity projects nothing. -/
theorem claim_C3_witness :
    stockoutOpt 20 (some 2) = some 10 ∧ stockoutOpt 20 none = none := by
  have h := claim_C3_stockout 20 30 0 1 2 (by norm_num)
  refine ⟨?_, h.1⟩
  rw [h.2.1 (by norm_num)]
  norm_num

/-- Claim C4: a low-stock row whose pair has no Sale inside the window has
no velocity group in either endpoint; the plain loop keeps it (with an
absent days_until_stockout) exactly when include_no_sales is set, and the
optimized filter keeps it exactly when include_no_sales is set. -/
theorem claim_C4_no_sales (db : DB) (cutoff days : Int) (incl : Bool)
    (pids : List Int) (r : JoinedRow) (rows : List JoinedRow)
    (hp : r.product.id = r.inv.product_id)
    (hw : r.warehouse.id = r.inv.warehouse_id)
    (hms : matchingSales db cutoff r.inv.product_id r.inv.warehouse_id
      = []) :
    (processRow db cutoff pids incl days r =
      if incl then
        some { product_id := r.product.id, product_name := r.product.name,
               sku := r.product.sku, warehouse_id := r.warehouse.id,
               warehouse_name := r.warehouse.name,
               current_stock := r.inv.quantity,
               threshold := resolveThreshold r.inv.low_stock_threshold
                 (typeDefault r.ptype),
               days_until_stockout := none,
               supplier := r.supplier.map (fun s =>
                 { id := s.id, name := s.name,
                   contact_email := s.contact_email }) }
      else none) ∧
    avgGroupOpt db cutoff days r.inv.product_id r.inv.warehouse_id
      = none ∧
    (r ∈ filterNoSales db cutoff days incl rows ↔
      incl = true ∧ r ∈ rows) := by
  have havg : avgGroupOpt db cutoff days r.inv.product_id
      r.inv.warehouse_id = none := (avgGroupOpt_none_iff _ _ _ _ _).mpr hms
  have hrg : recentGroup db cutoff pids r.product.id r.warehouse.id
      = none := by
    rw [hp, hw]
    exact recentGroup_none db cutoff pids _ _ hms
  refine ⟨?_, havg, ?_⟩
  · unfold processRow
    rw [hrg]
    cases incl
    · simp
    · simp [stockoutNonOpt]
  · unfold filterNoSales
    cases incl
    · simp only [if_neg Bool.false_ne_true]
      constructor
      · intro hmem
        have := (List.mem_filter.mp hmem).2
        rw [havg] at this
        exact absurd this (by simp)
      · intro hmem
        exact absurd hmem.1 (by simp)
    · simp

/-- Claim C4 witness: the single pair of exDB1 has no sales; with
include_no_sales false the loop drops the row and the optimized average is
absent. -/
theorem claim_C4_witness :
    matchingSales exDB1 70 1 1 = [] ∧
    processRow exDB1 70 [1] false 30 exRow = none ∧
    avgGroupOpt exDB1 70 30 1 1 = none := by
  have h := claim_C4_no_sales exDB1 70 30 false [1] exRow []
    rfl rfl (by decide)
  exact ⟨by decide, by simpa using h.1, h.2.1⟩

/-- Claim C5: every 200 response of either endpoint lists all alerts with
a present days_until_stockout before every alert without one, present
values ascending, and — the sort being stable — alerts sharing a key keep
their assembled fetch order. -/
theorem claim_C5_sorted (db : DB) (now cid days : Int) (incl : Bool)
    (l : List Alert) :
    (get_low_stock_alerts db now cid days incl = .ok l →
      l.Pairwise (fun a b => a.days_until_stockout = none →
        b.days_until_stockout = none) ∧
      l.Pairwise (fun a b => ∀ x y, a.days_until_stockout = some x →
        b.days_until_stockout = some y → x ≤ y) ∧
      ∀ k : Option Int,
        l.filter (fun a => a.days_until_stockout == k) =
          (assembleNonOpt db (now - days) days incl cid).filter
            (fun a => a.days_until_stockout == k)) ∧
    (get_low_stock_alerts_optimized db now cid days incl = .ok l →
      l.Pairwise (fun a b => a.days_until_stockout = none →
        b.days_until_stockout = none) ∧
      l.Pairwise (fun a b => ∀ x y, a.days_until_stockout = some x →
        b.days_until_stockout = some y → x ≤ y) ∧
      ∀ k : Option Int,
        l.filter (fun a => a.days_until_stockout == k) =
          (assembleOpt db (now - days) days incl cid).filter
            (fun a => a.days_until_stockout == k)) := by
  have main : ∀ base : List Alert,
      (sortStable alertKeyLt base).Pairwise
        (fun a b => a.days_until_stockout = none →
          b.days_until_stockout = none) ∧
      (sortStable alertKeyLt base).Pairwise
        (fun a b => ∀ x y, a.days_until_stockout = some x →
          b.days_until_stockout = some y → x ≤ y) ∧
      ∀ k : Option Int,
        (sortStable alertKeyLt base).filter
          (fun a => a.days_until_stockout == k) =
          base.filter (fun a => a.days_until_stockout == k) := by
    intro base
    have hpw := sortStable_pairwise alertKeyLt alertKeyLt_asymm
      alertKeyLt_not_trans base
    refine ⟨hpw.imp (fun h => (alertKey_facts _ _ h).1),
      hpw.imp (fun h => (alertKey_facts _ _ h).2), ?_⟩
    intro k
    apply filter_sortStable
    intro a b hak hbk
    apply alertKeyLt_of_eq_keys
    rw [eq_of_beq hak, eq_of_beq hbk]
  constructor
  · intro hok
    unfold get_low_stock_alerts at hok
    cases hc : db.companies.find? (fun c => c.id == cid) with
    | none => rw [hc] at hok; exact absurd hok (by simp)
    | some c =>
      rw [hc] at hok
      by_cases hd : days ≤ 0
      · rw [if_pos hd] at hok
        exact absurd hok (by simp)
      · rw [if_neg hd] at hok
        obtain rfl : _ = l := AlertsResult.ok.inj hok
        exact main _
  · intro hok
    unfold get_low_stock_alerts_optimized at hok
    cases hc : db.companies.find? (fun c => c.id == cid) with
    | none => rw [hc] at hok; exact absurd hok (by simp)
    | some c =>
      rw [hc] at hok
      by_cases hd : days ≤ 0
      · rw [if_pos hd] at hok
        exact absurd hok (by simp)
      · rw [if_neg hd] at hok
        obtain rfl : _ = l := AlertsResult.ok.inj hok
        exact main _

/-- Claim C5 witness: the concrete 200 response of exDB1 is an ordered
list. -/
theorem claim_C5_witness :
    get_low_stock_alerts exDB1 100 1 30 true =
      .ok (sortStable alertKeyLt (assembleNonOpt exDB1 70 30 true 1)) ∧
    (sortStable alertKeyLt (assembleNonOpt exDB1 70 30 true 1)).Pairwise
      (fun a b => a.days_until_stockout = none →
        b.days_until_stockout = none) :=
  ⟨by decide,
   ((claim_C5_sorted exDB1 100 1 30 true
     (sortStable alertKeyLt (assembleNonOpt exDB1 70 30 true 1))).1
     (by decide)).1⟩

/-- Claim C6 counterexample: on a store whose only supplier has id 0, the
two endpoints disagree — the plain loop reports the supplier block, while
the optimized variant tests Python truthiness of the joined supplier id
and reports null. -/
theorem claim_C6_counterexample :
    get_low_stock_alerts exDB0 100 1 30 true ≠
      get_low_stock_alerts_optimized exDB0 100 1 30 true := by
  decide

/-- Claim C6 (amended): provided no supplier row carries id 0, both
endpoints return the same outcome — the same status and the same alerts in
the same order, hence the same total_alerts. -/
theorem claim_C6_equiv (db : DB) (now cid days : Int) (incl : Bool)
    (hs : ∀ s ∈ db.suppliers, s.id ≠ 0) :
    get_low_stock_alerts db now cid days incl =
      get_low_stock_alerts_optimized db now cid days incl := by
  unfold get_low_stock_alerts get_low_stock_alerts_optimized
  cases hc : db.companies.find? (fun c => c.id == cid)
  · rfl
  · by_cases hd : days ≤ 0
    · simp [hd]
    · simp only [if_neg hd]
      rw [assemble_eq db (now - days) days incl cid hs]

/-- Claim C6 witness: on exDB1, whose supplier ids are nonzero, the two
endpoints agree. -/
theorem claim_C6_witness :
    get_low_stock_alerts exDB1 100 1 30 true =
      get_low_stock_alerts_optimized exDB1 100 1 30 true :=
  claim_C6_equiv exDB1 100 1 30 true (by decide)

/-- Claim C9: get_low_stock_alerts answers 404 whenever the company is
absent; 400 whenever the company exists and days is nonpositive; and a
200 with an empty list and total_alerts 0 when the company exists, days is
positive, and the company has no warehouses. -/
theorem claim_C9_errors (db : DB) (now cid days : Int) (incl : Bool) :
    (db.companies.find? (fun c => c.id == cid) = none →
      get_low_stock_alerts db now cid days incl = .notFound ∧
      statusAlerts (get_low_stock_alerts db now cid days incl) = 404) ∧
    (∀ c, db.companies.find? (fun c => c.id == cid) = some c →
      days ≤ 0 →
      get_low_stock_alerts db now cid days incl = .invalidDays ∧
      statusAlerts (get_low_stock_alerts db now cid days incl) = 400) ∧
    (∀ c, db.companies.find? (fun c => c.id == cid) = some c →
      0 < days →
      db.warehouses.filter (fun w => w.company_id == cid) = [] →
      get_low_stock_alerts db now cid days incl = .ok [] ∧
      statusAlerts (get_low_stock_alerts db now cid days incl) = 200 ∧
      totalAlerts (get_low_stock_alerts db now cid days incl) = 0) := by
  refine ⟨?_, ?_, ?_⟩
  · intro hc
    unfold get_low_stock_alerts
    rw [hc]
    exact ⟨rfl, rfl⟩
  · intro c hc hd
    unfold get_low_stock_alerts
    rw [hc, if_pos hd]
    exact ⟨rfl, rfl⟩
  · intro c hc hd hw
    have hnil : assembleNonOpt db (now - days) days incl cid = [] :=
      assembleNonOpt_nil db (now - days) days incl cid hw
    unfold get_low_stock_alerts
    rw [hc, if_neg (not_le.mpr hd), hnil]
    exact ⟨rfl, rfl, rfl⟩

/-- Claim C9 witness: unknown company 99 gives 404, days 0 gives 400, and
company 2 without warehouses gives an empty 200. -/
theorem claim_C9_witness :
    get_low_stock_alerts exDB1 100 99 30 false = .notFound ∧
    get_low_stock_alerts exDB1 100 1 0 false = .invalidDays ∧
    get_low_stock_alerts exDB1 100 2 30 false = .ok [] :=
  ⟨((claim_C9_errors exDB1 100 99 30 false).1 (by decide)).1,
   ((claim_C9_errors exDB1 100 1 0 false).2.1 exComp1 (by decide)
     (by decide)).1,
   ((claim_C9_errors exDB1 100 2 30 false).2.2 exComp2 (by decide)
     (by decide) (by decide)).1⟩

/-- The description step never reports a created outcome on its error
side. -/
theorem descriptionStep_not_created (d : Option JVal) (e : CPResult)
    (h : descriptionStep d = Sum.inl e) : ∀ pid, e ≠ .created pid := by
  unfold descriptionStep at h
  split at h
  · simp at h
  · split at h
    · split at h
      · simp at h
      · obtain rfl : _ = e := Sum.inl.inj h
        intro pid
        simp
    · simp at h

/-- The supplier step never reports a created outcome on its error side. -/
theorem supplierStep_not_created (db : DB) (rsup : Option JVal)
    (e : CPResult) (h : supplierStep db rsup = Sum.inl e) :
    ∀ pid, e ≠ .created pid := by
  unfold supplierStep at h
  split at h
  · simp at h
  · simp at h
  · split at h
    · obtain rfl : _ = e := Sum.inl.inj h
      intro pid
      simp
    · split at h
      · obtain rfl : _ = e := Sum.inl.inj h
        intro pid
        simp
      · simp at h

set_option maxHeartbeats 1600000 in
/-- Claim C7: create_product is all-or-nothing.  On every outcome other
than created the returned store is untouched; on created it holds exactly
one new product, one new inventory row carrying the parsed nonnegative
initial quantity, and one initial_stock audit row, all referencing the
fresh product id. -/
theorem claim_C7_atomic (db : DB) (req : CPReq) (race : List Product)
    (fault : Bool) :
    ((∀ pid, (create_product db req race fault).1 ≠ .created pid) →
      (create_product db req race fault).2 = db) ∧
    (∀ pid, (create_product db req race fault).1 = .created pid →
      ∃ (p : Product) (inv : Inventory) (tx : InventoryTransaction)
        (j : JVal) (n : Int),
        (create_product db req race fault).2 =
          { db with products := db.products ++ [p],
                    inventories := db.inventories ++ [inv],
                    invTransactions := db.invTransactions ++ [tx] } ∧
        p.id = pid ∧ inv.product_id = pid ∧ tx.product_id = pid ∧
        req.initial_quantity = some j ∧ pyIntJ j = some n ∧ 0 ≤ n ∧
        inv.quantity = n ∧ tx.quantity_before = 0 ∧
        tx.quantity_after = n ∧ tx.quantity_change = n ∧
        tx.transaction_type = "initial_stock") := by
  unfold create_product
  dsimp only
  repeat' split
  all_goals first
    | (refine ⟨fun _ => rfl, fun pid h => ?_⟩
       simp at h
       done)
    | (refine ⟨fun _ => rfl, fun pid h => ?_⟩
       rename_i e heqsup
       exact absurd h (supplierStep_not_created db req.supplier_id e
         heqsup pid))
    | (refine ⟨fun _ => rfl, fun pid h => ?_⟩
       rename_i e heqdescr
       exact absurd h (descriptionStep_not_created req.description e
         heqdescr pid))
    | (refine ⟨fun hno => ?_, fun pid h => ?_⟩
       · exact absurd rfl (hno (freshProductId db))
       · obtain rfl : _ = pid := by simpa using h
         exact ⟨_, _, _, _, _, rfl, rfl, rfl, rfl, by assumption,
           by assumption, by exact Int.not_lt.mp (by assumption),
           rfl, rfl, rfl, rfl, rfl⟩)

/-- Valid creation request for a new product at warehouse 1. -/
def exReqNew : CPReq :=
  { name := some (.jstr "Widget"), sku := some (.jstr "W-1"),
    price := some (.jint 5), warehouse_id := some (.jint 1),
    initial_quantity := some (.jint 3), description := none,
    supplier_id := none, product_type_id := none }

/-- Creation request reusing the existing SKU A. -/
def exReqDup : CPReq :=
  { exReqNew with sku := some (.jstr "A") }

/-- Creation request whose warehouse_id is a non-numeric string. -/
def exReqBadWh : CPReq :=
  { exReqNew with sku := some (.jstr "W-2"),
                  warehouse_id := some (.jstr "abc") }

/-- Product committed by a concurrent request between the pre-write check
and our commit, stealing the SKU of exReqNew. -/
def exRaceProd : Product :=
  { id := 9, sku := "W-1", name := "Race", price := 5, description := none,
    product_type_id := none, supplier_id := none }

/-- Claim C7 witness: a rejected duplicate leaves the store untouched, and
a successful creation appends exactly the product, inventory and audit
rows. -/
theorem claim_C7_witness :
    (create_product exDB1 exReqDup [] false).2 = exDB1 ∧
    ∃ (p : Product) (inv : Inventory) (tx : InventoryTransaction)
      (j : JVal) (n : Int),
      (create_product exDB1 exReqNew [] false).2 =
        { exDB1 with products := exDB1.products ++ [p],
                     inventories := exDB1.inventories ++ [inv],
                     invTransactions := exDB1.invTransactions ++ [tx] } ∧
      p.id = 2 ∧ inv.product_id = 2 ∧ tx.product_id = 2 ∧
      exReqNew.initial_quantity = some j ∧ pyIntJ j = some n ∧ 0 ≤ n ∧
      inv.quantity = n ∧ tx.quantity_before = 0 ∧ tx.quantity_after = n ∧
      tx.quantity_change = n ∧ tx.transaction_type = "initial_stock" := by
  constructor
  · refine (claim_C7_atomic exDB1 exReqDup [] false).1 ?_
    intro pid h
    rw [show (create_product exDB1 exReqDup [] false).1 =
      .conflict (some 1) from by decide] at h
    exact CPResult.noConfusion h
  · exact (claim_C7_atomic exDB1 exReqNew [] false).2 2 (by decide)

/-- Claim C8: a duplicate SKU is rejected as a 409 Conflict with the store
untouched on both detection paths — the pre-write existence check, and the
flush-time unique violation raised when a concurrent insert stole the SKU
after a clean pre-write check on a request that passes every earlier step
(valid price, quantity, warehouse, name, supplier, a description the
strip call accepts, and a product_type_id the integer column can hold). -/
theorem claim_C8_conflict (db : DB) (req : CPReq) (race : List Product)
    (fault : Bool) (nameJ skuJ priceJ whJ qtyJ : JVal)
    (hname : req.name = some nameJ) (hsku : req.sku = some skuJ)
    (hprice : req.price = some priceJ) (hwh : req.warehouse_id = some whJ)
    (hqty : req.initial_quantity = some qtyJ)
    (hskune : (pyStrip (pyStr skuJ) == "") = false) :
    ((∃ p, db.products.find?
        (fun x => x.sku == pyStrip (pyStr skuJ)) = some p) →
      statusCP (create_product db req race fault).1 = 409 ∧
      (create_product db req race fault).2 = db) ∧
    (db.products.find? (fun x => x.sku == pyStrip (pyStr skuJ)) = none →
      race.any (fun p => p.sku == pyStrip (pyStr skuJ)) = true →
      (∃ pr, pyFloat priceJ = some pr ∧ ¬ pr < 0) →
      (∃ n, pyIntJ qtyJ = some n ∧ ¬ n < 0) →
      (∃ wid w, pyIntJ whJ = some wid ∧
        db.warehouses.find? (fun x => x.id == wid) = some w) →
      (pyStrip (pyStr nameJ) == "") = false →
      (∃ od, descriptionStep req.description = Sum.inr od) →
      (∃ osid, supplierStep db req.supplier_id = Sum.inr osid) →
      (∃ optid, productTypeIdStep req.product_type_id = some optid) →
      statusCP (create_product db req race fault).1 = 409 ∧
      (create_product db req race fault).2 = db) := by
  unfold create_product
  rw [hname, hsku, hprice, hwh, hqty]
  dsimp only
  constructor
  · rintro ⟨p, hfind⟩
    rw [if_neg (by simp [hskune]), hfind]
    exact ⟨rfl, rfl⟩
  · rintro hnone hrace ⟨pr, hpr, hprn⟩ ⟨n, hn, hnn⟩
      ⟨wid, w, hwid, hwf⟩ hnamene ⟨od, hdescr⟩ ⟨osid, hsup⟩
      ⟨optid, hptid⟩
    have hdbany : db.products.any
        (fun p => p.sku == pyStrip (pyStr skuJ)) = false := by
      cases hA : db.products.any (fun p => p.sku == pyStrip (pyStr skuJ))
      · rfl
      · exfalso
        rcases List.any_eq_true.mp hA with ⟨x, hx, hpx⟩
        have hnx := List.find?_eq_none.mp hnone x hx
        exact hnx hpx
    rw [if_neg (by simp [hskune]), hnone]
    dsimp only
    rw [hpr]
    dsimp only
    rw [if_neg hprn, hn]
    dsimp only
    rw [if_neg hnn, hwid]
    dsimp only
    rw [hwf]
    dsimp only
    rw [if_neg (by simp [hnamene]), hdescr]
    dsimp only
    rw [hsup]
    dsimp only
    rw [hptid]
    dsimp only
    rw [if_pos (by simp [List.any_append, hdbany, hrace])]
    exact ⟨rfl, rfl⟩

/-- Claim C8 witness: SKU A duplicates an existing product at the
pre-write check, and SKU W-1 duplicates a concurrently committed product
at the flush-time check; both answer 409 and write nothing. -/
theorem claim_C8_witness :
    (statusCP (create_product exDB1 exReqDup [] false).1 = 409 ∧
      (create_product exDB1 exReqDup [] false).2 = exDB1) ∧
    (statusCP (create_product exDB1 exReqNew [exRaceProd] false).1 = 409 ∧
      (create_product exDB1 exReqNew [exRaceProd] false).2 = exDB1) := by
  constructor
  · exact (claim_C8_conflict exDB1 exReqDup [] false _ _ _ _ _
      rfl rfl rfl rfl rfl (by decide)).1 ⟨exProd1, by decide⟩
  · exact (claim_C8_conflict exDB1 exReqNew [exRaceProd] false _ _ _ _ _
      rfl rfl rfl rfl rfl (by decide)).2 (by decide) (by decide)
      ⟨((5 : Int) : ℚ), rfl, by norm_num⟩ ⟨3, rfl, by norm_num⟩
      ⟨1, exWh1, rfl, by decide⟩ (by decide) ⟨none, rfl⟩ ⟨none, rfl⟩
      ⟨none, rfl⟩

/-- Claim C10: a request whose warehouse_id does not parse as an integer
is answered with a 500 Internal error, not a 400 validation error: the
int() conversion at source line 84 sits outside every per-field try/except
and its ValueError falls through to the outermost handler. -/
theorem claim_C10_nonint_warehouse :
    (create_product exDB1 exReqBadWh [] false).1 = .internalError ∧
    statusCP (create_product exDB1 exReqBadWh [] false).1 = 500 ∧
    (create_product exDB1 exReqBadWh [] false).2 = exDB1 := by
  decide
